import Mathlib

/-!
Verification of `pastamaker/web.py` (webhook intake, queue state reporting,
status aggregation and streaming) against its natural-language specification.

The Python source is embedded shallowly:
pure helpers become Lean functions on `Nat`/`String`/`List`; request bodies and
redis values are byte lists (`List Nat`); fallible code returns `Except`/`Option`.
External libraries the source calls (`hmac`/`hashlib` via `utils.compute_hmac`,
`lz4.block`, `ujson`) are given executable models faithful to their documented
formats (HMAC-SHA1, the lz4 block format with its 4-byte size header, JSON).
-/

namespace Pastamaker

/-! ### Modelled from the spec: `utils.compute_hmac`

`pastamaker/utils.py` is not part of the sources under verification; only its
caller `web.py:229` is.  The spec (section 8) fixes the computation:
a signature is `"sha1=" + hex(HMAC-SHA1(secret, body))` over the exact raw
body bytes.  Below is an executable HMAC-SHA1 with a lowercase hex digest,
validated against the RFC 2202 test vectors. -/

/-- Truncation to a 32-bit word. -/
def w32 (n : Nat) : Nat := n % 4294967296

/-- Left rotation of a 32-bit word by `k` bits (callers keep `x < 2^32`). -/
def rotl (k x : Nat) : Nat := w32 (x * 2 ^ k + x / 2 ^ (32 - k))

/-- Big-endian 4-byte encoding of a 32-bit word. -/
def be32bytes (n : Nat) : List Nat :=
  [n / 16777216 % 256, n / 65536 % 256, n / 256 % 256, n % 256]

/-- Big-endian 8-byte encoding of a 64-bit length. -/
def be64bytes (n : Nat) : List Nat :=
  [n / 72057594037927936 % 256, n / 281474976710656 % 256,
   n / 1099511627776 % 256, n / 4294967296 % 256,
   n / 16777216 % 256, n / 65536 % 256, n / 256 % 256, n % 256]

/-- Split a list into chunks of `k` elements (fuel-based so it reduces). -/
def chunkF (k : Nat) : Nat → List Nat → List (List Nat)
  | 0, _ => []
  | _, [] => []
  | fuel + 1, l => l.take k :: chunkF k fuel (l.drop k)

/-- SHA-1 round function (round index `i`). -/
def sha1F (i b c d : Nat) : Nat :=
  if i < 20 then (b &&& c) ||| ((4294967295 - b) &&& d)
  else if i < 40 then b ^^^ c ^^^ d
  else if i < 60 then (b &&& c) ||| (b &&& d) ||| (c &&& d)
  else b ^^^ c ^^^ d

/-- SHA-1 round constants. -/
def sha1K (i : Nat) : Nat :=
  if i < 20 then 1518500249
  else if i < 40 then 1859775393
  else if i < 60 then 2400959708
  else 3395469782

/-- A big-endian 32-bit word from four bytes. -/
def be32OfBytes : List Nat → Nat
  | [a, b, c, d] => ((a * 256 + b) * 256 + c) * 256 + d
  | _ => 0

/-- One step of the SHA-1 message-schedule extension.  The accumulator holds
the words produced so far, newest first. -/
def sha1ExtendStep (r : List Nat) : List Nat :=
  rotl 1 ((r.getD 2 0) ^^^ (r.getD 7 0) ^^^ (r.getD 13 0) ^^^ (r.getD 15 0)) :: r

/-- Iterate the schedule extension `n` times. -/
def sha1ExtendN : Nat → List Nat → List Nat
  | 0, r => r
  | n + 1, r => sha1ExtendN n (sha1ExtendStep r)

/-- The 80 SHA-1 compression rounds over the schedule words. -/
def sha1Rounds : Nat → List Nat → Nat × Nat × Nat × Nat × Nat → Nat × Nat × Nat × Nat × Nat
  | _, [], st => st
  | i, w :: ws, (a, b, c, d, e) =>
    sha1Rounds (i + 1) ws
      (w32 (rotl 5 a + sha1F i b c d + e + sha1K i + w), a, rotl 30 b, c, d)

/-- Compress one 64-byte block into the running state. -/
def sha1Block (h : Nat × Nat × Nat × Nat × Nat) (block : List Nat) :
    Nat × Nat × Nat × Nat × Nat :=
  let w16 := (chunkF 4 16 block).map be32OfBytes
  let ws := (sha1ExtendN 64 w16.reverse).reverse
  let (a, b, c, d, e) := sha1Rounds 0 ws h
  (w32 (h.1 + a), w32 (h.2.1 + b), w32 (h.2.2.1 + c), w32 (h.2.2.2.1 + d), w32 (h.2.2.2.2 + e))

/-- SHA-1 initial state. -/
def sha1Init : Nat × Nat × Nat × Nat × Nat :=
  (1732584193, 4023233417, 2562383102, 271733878, 3285377520)

/-- SHA-1 padding: `0x80`, zeros to 56 mod 64, then the bit length. -/
def sha1Pad (msg : List Nat) : List Nat :=
  msg ++ [128] ++ List.replicate ((119 - msg.length % 64) % 64) 0 ++ be64bytes (msg.length * 8)

/-- SHA-1 digest (20 bytes) of a byte list. -/
def sha1 (msg : List Nat) : List Nat :=
  let padded := sha1Pad msg
  let blocks := chunkF 64 (padded.length + 1) padded
  let h := blocks.foldl sha1Block sha1Init
  be32bytes h.1 ++ be32bytes h.2.1 ++ be32bytes h.2.2.1 ++
    be32bytes h.2.2.2.1 ++ be32bytes h.2.2.2.2

/-- HMAC-SHA1 (RFC 2104) of `msg` under `key`. -/
def hmacSha1 (key msg : List Nat) : List Nat :=
  let k1 := if key.length > 64 then sha1 key else key
  let k2 := k1 ++ List.replicate (64 - k1.length) 0
  sha1 ((k2.map (fun b => b ^^^ 92)) ++ sha1 ((k2.map (fun b => b ^^^ 54)) ++ msg))

/-- Lowercase hex digit. -/
def hexDigitChar (n : Nat) : Char :=
  match n with
  | 0 => '0' | 1 => '1' | 2 => '2' | 3 => '3' | 4 => '4'
  | 5 => '5' | 6 => '6' | 7 => '7' | 8 => '8' | 9 => '9'
  | 10 => 'a' | 11 => 'b' | 12 => 'c' | 13 => 'd' | 14 => 'e' | 15 => 'f'
  | _ => '*'

/-- Two lowercase hex digits of one byte. -/
def hexBytePair (b : Nat) : List Char := [hexDigitChar (b / 16), hexDigitChar (b % 16)]

/-- Lowercase hex string of a byte list (Python `hexdigest()`). -/
def hexOfBytes (bs : List Nat) : String := String.mk (bs.flatMap hexBytePair)

/-- Byte list of an ASCII string. -/
def strBytes (s : String) : List Nat := s.toList.map Char.toNat

/-- Model of `utils.compute_hmac`, from the spec: lowercase hex HMAC-SHA1
digest of the raw request body under the pre-shared webhook secret. -/
def compute_hmac (secret body : List Nat) : String := hexOfBytes (hmacSha1 secret body)

/-! ### `authentification` (web.py:213-232) -/

/-- Python `str.split(sep)` for a one-character separator, on char lists:
splits at every occurrence, no limit. -/
def splitOnChar (sep : Char) : List Char → List (List Char)
  | [] => [[]]
  | c :: cs =>
    match splitOnChar sep cs with
    | [] => [[]]
    | p :: ps => if c = sep then [] :: p :: ps else (c :: p) :: ps

/-- Python `s.split(sep)` returning strings. -/
def pySplit (s : String) (sep : Char) : List String :=
  (splitOnChar sep s.toList).map String.mk

/-- Outcome of `authentification()`: fall through, or `flask.abort(403)`. -/
inductive AuthResult where
  | ok : AuthResult
  | forbidden : AuthResult
deriving DecidableEq, Repr

/-- The function `authentification()` (web.py:213-232).  `header` is the value of the
`X-Hub-Signature` request header if present, `body` is `flask.request.data`.
The header is split at every `=`; unless that yields exactly an algorithm
name and a digest the unpacking raises `ValueError` and `sha_name` stays
`None`, hence 403.  Only algorithm `sha1` is accepted; the digest is compared
(`hmac.compare_digest`) with the computed hex HMAC of the raw body. -/
def authentification (secret : List Nat) (header : Option String) (body : List Nat) :
    AuthResult :=
  match header with
  | none => .forbidden
  | some h =>
    match pySplit h '=' with
    | [sha_name, signature] =>
      if sha_name = "sha1" then
        if compute_hmac secret body = signature then .ok else .forbidden
      else .forbidden
    | _ => .forbidden

/-! ### `lz4.block.decompress` (used at web.py:128)

Model of the lz4 block format as consumed by `lz4.block.decompress` with its
default framing: a 4-byte little-endian uncompressed size followed by the raw
block (sequences of token, literals, 2-byte offset, match).  Malformed input
yields `none` (the Python binding raises). -/

/-- Little-endian 32-bit header: value and remaining bytes. -/
def le32 : List Nat → Option (Nat × List Nat)
  | a :: b :: c :: d :: rest => some (a + 256 * (b + 256 * (c + 256 * d)), rest)
  | _ => none

/-- Read an lz4 length extension: bytes are added while they equal 255. -/
def lz4ReadExt : Nat → List Nat → Option (Nat × List Nat)
  | 0, _ => none
  | _, [] => none
  | fuel + 1, b :: rest =>
    if b = 255 then (lz4ReadExt fuel rest).map (fun p => (255 + p.1, p.2)) else some (b, rest)

/-- Copy `n` match bytes from `offset` back in the output (byte by byte, so
overlapping matches replicate). -/
def lz4CopyMatch : Nat → List Nat → Nat → Option (List Nat)
  | 0, out, _ => some out
  | n + 1, out, offset =>
    if offset = 0 ∨ out.length < offset then none
    else lz4CopyMatch n (out ++ [out.getD (out.length - offset) 0]) offset

/-- Decode the raw lz4 block body. -/
def lz4Loop : Nat → List Nat → List Nat → Option (List Nat)
  | 0, _, _ => none
  | _, [], out => some out
  | fuel + 1, token :: rest, out =>
    let step : Option (Nat × List Nat) :=
      if token / 16 = 15 then (lz4ReadExt fuel rest).map (fun p => (15 + p.1, p.2))
      else some (token / 16, rest)
    match step with
    | none => none
    | some (litLen, rest) =>
      if rest.length < litLen then none
      else
        let out := out ++ rest.take litLen
        let rest := rest.drop litLen
        match rest with
        | [] => some out
        | o1 :: o2 :: rest =>
          let offset := o1 + 256 * o2
          let stepM : Option (Nat × List Nat) :=
            if token % 16 = 15 then (lz4ReadExt fuel rest).map (fun p => (15 + p.1, p.2))
            else some (token % 16, rest)
          match stepM with
          | none => none
          | some (mLen, rest) =>
            match lz4CopyMatch (mLen + 4) out offset with
            | none => none
            | some out => lz4Loop fuel rest out
        | _ => none

/-- Model of `lz4.block.decompress(payload)`: size header then block body; the decoded
output must have exactly the announced length. -/
def lz4_decompress (payload : List Nat) : Option (List Nat) :=
  match le32 payload with
  | none => none
  | some (size, rest) =>
    match lz4Loop (rest.length + 1) rest [] with
    | none => none
    | some out => if out.length = size then some out else none

/-! ### JSON values, `ujson.loads` and `ujson.dumps` (web.py:129, 138) -/

/-- JSON values as produced by `ujson.loads` (integer numbers suffice for the
payloads this service transports). -/
inductive Json where
  | null : Json
  | bool (b : Bool) : Json
  | num (n : Int) : Json
  | str (s : String) : Json
  | arr (xs : List Json) : Json
  | obj (kvs : List (String × Json)) : Json
deriving Repr

/-- Skip JSON whitespace. -/
def skipWs : List Char → List Char
  | [] => []
  | c :: cs => if c = ' ' ∨ c = '\n' ∨ c = '\t' ∨ c = '\r' then skipWs cs else c :: cs

/-- Decode one string-escape character. -/
def unescapeChar (c : Char) : Option Char :=
  if c = '"' then some '"'
  else if c = '\\' then some '\\'
  else if c = '/' then some '/'
  else if c = 'n' then some '\n'
  else if c = 't' then some '\t'
  else if c = 'r' then some '\r'
  else none

/-- Parse the remainder of a JSON string after the opening quote. -/
def parseStrAux (acc : List Char) : List Char → Option (String × List Char)
  | [] => none
  | c :: cs =>
    if c = '"' then some (String.mk acc.reverse, cs)
    else if c = '\\' then
      match cs with
      | e :: cs' =>
        match unescapeChar e with
        | some u => parseStrAux (u :: acc) cs'
        | none => none
      | [] => none
    else parseStrAux (c :: acc) cs

/-- Accumulate decimal digits. -/
def parseDigitsAux (acc : Nat) (seen : Bool) : List Char → Option (Nat × List Char)
  | [] => if seen then some (acc, []) else none
  | c :: cs =>
    if c.isDigit then parseDigitsAux (acc * 10 + (c.toNat - 48)) true cs
    else if seen then some (acc, c :: cs) else none

/-- Parse an optionally signed integer literal. -/
def parseIntTok : List Char → Option (Int × List Char)
  | [] => none
  | c :: cs =>
    if c = '-' then (parseDigitsAux 0 false cs).map (fun p => (-(p.1 : Int), p.2))
    else (parseDigitsAux 0 false (c :: cs)).map (fun p => ((p.1 : Int), p.2))

/-- Parser modes: a value, the items of an array (after `[` or `,`), or the
members of an object. -/
inductive PMode where
  | val : PMode
  | arrTail : PMode
  | objTail : PMode

/-- Recursive-descent JSON parser, fuel-based so it is structurally recursive
and reduces in the kernel.  The `arrTail`/`objTail` modes return their items
wrapped in `Json.arr`/`Json.obj`. -/
def parseF : Nat → PMode → List Char → Option (Json × List Char)
  | 0, _, _ => none
  | fuel + 1, .val, cs =>
    match skipWs cs with
    | 'n' :: 'u' :: 'l' :: 'l' :: rest => some (.null, rest)
    | 't' :: 'r' :: 'u' :: 'e' :: rest => some (.bool true, rest)
    | 'f' :: 'a' :: 'l' :: 's' :: 'e' :: rest => some (.bool false, rest)
    | '"' :: rest => (parseStrAux [] rest).map (fun p => (.str p.1, p.2))
    | '[' :: rest => parseF fuel .arrTail rest
    | '\x7b' :: rest => parseF fuel .objTail rest
    | c :: rest =>
      if c = '-' ∨ c.isDigit then (parseIntTok (c :: rest)).map (fun p => (.num p.1, p.2))
      else none
    | [] => none
  | fuel + 1, .arrTail, cs =>
    match skipWs cs with
    | ']' :: rest => some (.arr [], rest)
    | cs' =>
      match parseF fuel .val cs' with
      | none => none
      | some (v, rest) =>
        match skipWs rest with
        | ',' :: rest' =>
          match parseF fuel .arrTail rest' with
          | some (.arr items, rest'') => some (.arr (v :: items), rest'')
          | _ => none
        | ']' :: rest' => some (.arr [v], rest')
        | _ => none
  | fuel + 1, .objTail, cs =>
    match skipWs cs with
    | '\x7d' :: rest => some (.obj [], rest)
    | '"' :: rest =>
      match parseStrAux [] rest with
      | none => none
      | some (k, rest') =>
        match skipWs rest' with
        | ':' :: rest'' =>
          match parseF fuel .val rest'' with
          | none => none
          | some (v, rest3) =>
            match skipWs rest3 with
            | ',' :: rest4 =>
              match parseF fuel .objTail rest4 with
              | some (.obj kvs, rest5) => some (.obj ((k, v) :: kvs), rest5)
              | _ => none
            | '\x7d' :: rest4 => some (.obj [(k, v)], rest4)
            | _ => none
        | _ => none
    | _ => none

/-- Model of `ujson.loads` on a string: a single JSON value with only trailing
whitespace allowed. -/
def jsonLoads (s : String) : Option Json :=
  match parseF (2 * s.toList.length + 4) .val s.toList with
  | some (v, rest) => if skipWs rest = [] then some v else none
  | none => none

/-- Model of `ujson.loads` on raw bytes (payloads here are ASCII). -/
def jsonLoadsBytes (bs : List Nat) : Option Json :=
  jsonLoads (String.mk (bs.map Char.ofNat))

/-- Escape one character for JSON output. -/
def jsonEscChar (c : Char) : List Char :=
  if c = '"' then ['\\', '"'] else if c = '\\' then ['\\', '\\'] else [c]

/-- Serialize a JSON string literal. -/
def dumpsStr (s : String) : String :=
  String.mk ('"' :: s.toList.flatMap jsonEscChar ++ ['"'])

mutual

/-- Model of `ujson.dumps` (compact separators, like ujson's default output). -/
def dumpsJson : Json → String
  | .null => "null"
  | .bool true => "true"
  | .bool false => "false"
  | .num n => toString n
  | .str s => dumpsStr s
  | .arr xs => "[" ++ dumpsArr xs ++ "]"
  | .obj kvs => "\x7b" ++ dumpsObj kvs ++ "\x7d"

/-- Serialize array items. -/
def dumpsArr : List Json → String
  | [] => ""
  | [x] => dumpsJson x
  | x :: y :: rest => dumpsJson x ++ "," ++ dumpsArr (y :: rest)

/-- Serialize object members. -/
def dumpsObj : List (String × Json) → String
  | [] => ""
  | [(k, v)] => dumpsStr k ++ ":" ++ dumpsJson v
  | (k, v) :: p :: rest => dumpsStr k ++ ":" ++ dumpsJson v ++ "," ++ dumpsObj (p :: rest)

end

/-! ### Queue state store and endpoints (web.py:115-144)

Redis is modelled as an association list from keys to byte-list values; the
worker subsystem owns the writes, this core only reads.  `r.keys(pattern)`
enumerates the stored keys in list order (redis order is unspecified). -/

/-- The redis contents visible to this core. -/
abbrev Store := List (String × List Nat)

/-- Model of `r.get(key)`: the stored value, if the key is present. -/
def rget (store : Store) (key : String) : Option (List Nat) :=
  (store.find? (fun p => p.1 == key)).map (fun p => p.2)

/-- The composite key `"queues~%s~%s~%s"` (web.py:117). -/
def queueKey (owner repo branch : String) : String :=
  "queues~" ++ owner ++ "~" ++ repo ++ "~" ++ branch

/-- The endpoint `GET /queue/<owner>/<repo>/<branch>` (web.py:115-117):
`get_redis().get(...) or "[]"`.  A missing key (`None`) and an empty stored
byte string are both falsy, so both produce the literal `"[]"`; any other
stored value is returned verbatim, with no decompression. -/
def queue (store : Store) (owner repo branch : String) : List Nat :=
  match rget store (queueKey owner repo branch) with
  | none => strBytes "[]"
  | some v => if v = [] then strBytes "[]" else v

/-- Does a key match the glob `"queues~*~*~*"` (web.py:122)?  Each `*` matches
any (possibly empty, possibly `~`-containing) sequence, so a key matches iff
splitting at `~` yields at least four parts whose first is `queues`. -/
def keyMatchesPattern (k : String) : Bool :=
  let ps := pySplit k '~'
  decide (4 ≤ ps.length) && (ps.headD "" == "queues")

/-- The keys returned by `r.keys("queues~*~*~*")`. -/
def storeKeys (store : Store) : List String :=
  (store.map (fun p => p.1)).filter keyMatchesPattern

/-- One element of the aggregated status: the dict appended at web.py:131-137. -/
structure Snapshot where
  owner : String
  repo : String
  branch : String
  pulls : List Json
  updated_at : Option Json
deriving Repr

/-- Model of `p["updated_at"]` etc.: Python `__getitem__` with a string key.  Works on
dicts (KeyError if absent); on anything else it raises (`TypeError`). -/
def getItem (j : Json) (k : String) : Except Unit Json :=
  match j with
  | .obj kvs =>
    match kvs.find? (fun p => p.1 == k) with
    | some p => .ok p.2
    | none => .error ()
  | _ => .error ()

/-- Python ordering on the scalar JSON values that appear in `updated_at`
fields: numbers compare with numbers, strings with strings, anything else
raises `TypeError`. -/
def pyLt (a b : Json) : Except Unit Bool :=
  match a, b with
  | .num x, .num y => .ok (decide (x < y))
  | .str x, .str y => .ok (decide (x < y))
  | _, _ => .error ()

/-- Insert into a sorted list (Python `sorted` semantics for a total order,
propagating comparison errors). -/
def pyInsert (x : Json) : List Json → Except Unit (List Json)
  | [] => .ok [x]
  | y :: ys =>
    match pyLt x y with
    | .error e => .error e
    | .ok true => .ok (x :: y :: ys)
    | .ok false =>
      match pyInsert x ys with
      | .error e => .error e
      | .ok r => .ok (y :: r)

/-- Python `sorted` on a list of JSON scalars. -/
def pySorted : List Json → Except Unit (List Json)
  | [] => .ok []
  | x :: xs =>
    match pySorted xs with
    | .error e => .error e
    | .ok r => pyInsert x r

/-- Map `getItem · "updated_at"` over the pulls (the list comprehension at
web.py:130), stopping at the first error. -/
def updatedAtList : List Json → Except Unit (List Json)
  | [] => .ok []
  | p :: ps =>
    match getItem p "updated_at" with
    | .error e => .error e
    | .ok v =>
      match updatedAtList ps with
      | .error e => .error e
      | .ok vs => .ok (v :: vs)

/-- The expression `list(sorted([p["updated_at"] for p in pulls]))[-1]` (web.py:130):
the last element of the sorted timestamps; `[-1]` on an empty list raises
`IndexError`. -/
def lastSortedUpdatedAt (pulls : List Json) : Except Unit Json :=
  match updatedAtList pulls with
  | .error e => .error e
  | .ok vals =>
    match pySorted vals with
    | .error e => .error e
    | .ok sorted =>
      match sorted.getLast? with
      | some v => .ok v
      | none => .error ()

/-- The body of the `for key in r.keys(...)` loop of `_get_status`
(web.py:120-137), one iteration per enumerated key.

The Python local `pulls` is assigned only inside `if payload:`; it survives
into later iterations, and reading it before any assignment raises
`NameError`.  It is threaded here as `pullsVar : Option (List Json)`
(`none` = never assigned).  `updated_at` is reset to `None` every iteration.
Any exception (`ValueError` from unpacking a key with more than three `~`,
decompression or JSON errors, `IndexError` from `[-1]`, `NameError`)
aborts the whole aggregation. -/
def statusLoop (store : Store) :
    List String → Option (List Json) → List Snapshot → Except Unit (List Snapshot)
  | [], _, acc => .ok acc.reverse
  | key :: rest, pullsVar, acc =>
    match pySplit key '~' with
    | [_, owner, repo, branch] =>
      let payload := (rget store key).getD []
      if payload ≠ [] then
        match lz4_decompress payload with
        | none => .error ()
        | some decompressed =>
          match jsonLoadsBytes decompressed with
          | some (.arr pulls) =>
            match lastSortedUpdatedAt pulls with
            | .error e => .error e
            | .ok u =>
              statusLoop store rest (some pulls)
                (⟨owner, repo, branch, pulls, some u⟩ :: acc)
          | _ => .error ()
      else
        match pullsVar with
        | none => .error ()
        | some pulls =>
          statusLoop store rest (some pulls) (⟨owner, repo, branch, pulls, none⟩ :: acc)
    | _ => .error ()

/-- The snapshots accumulated by `_get_status` before serialization. -/
def statusSnapshots (store : Store) : Except Unit (List Snapshot) :=
  statusLoop store (storeKeys store) none []

/-- The dict literal appended at web.py:131-137, as a JSON value
(`None` serializes as `null`). -/
def snapshotJson (s : Snapshot) : Json :=
  .obj [("owner", .str s.owner), ("repo", .str s.repo), ("branch", .str s.branch),
        ("pulls", .arr s.pulls), ("updated_at", s.updated_at.getD .null)]

/-- The function `_get_status(r)` (web.py:120-138): the serialized list of snapshots. -/
def _get_status (store : Store) : Except Unit String :=
  match statusSnapshots store with
  | .error e => .error e
  | .ok qs => .ok (dumpsJson (.arr (qs.map snapshotJson)))

/-! ### Streaming (web.py:147-170)

A streaming session is driven by what `pubsub.get_message(timeout=50.0)`
returns on each pass through the `while True` loop: `None` on timeout, or a
message dict with `type`, `channel` and `data` fields (the subscription
confirmation delivered right after `subscribe` is such а message, with type
`subscribe`).  Redis contents may change between waits, so each loop pass
carries the store state seen by that pass's `_get_status`. -/

/-- A message returned by `pubsub.get_message`. -/
structure PubsubMsg where
  type : String
  channel : String
  data : String
deriving DecidableEq, Repr

/-- The helper `stream_message` (web.py:147-148). -/
def stream_message (t data : String) : String :=
  "event: " ++ t ++ "\ndata: " ++ data ++ "\n\n"

/-- One pass of the `while True` loop (web.py:156-164): the frames it yields.
A timeout yields one ping; a message on channel `update` yields one freshly
recomputed refresh frame; any other message yields nothing. -/
def stream_step (ev : Store × Option PubsubMsg) : Except Unit (List String) :=
  match ev.2 with
  | none => .ok [stream_message "ping" "\x7b\x7d"]
  | some m =>
    if m.channel = "update" then
      match _get_status ev.1 with
      | .error e => .error e
      | .ok s => .ok [stream_message "refresh" s]
    else .ok []

/-- Run `stream_step` over a whole session trace, collecting per-pass frame
lists; an exception anywhere kills the generator. -/
def streamSteps : List (Store × Option PubsubMsg) → Except Unit (List (List String))
  | [] => .ok []
  | ev :: evs =>
    match stream_step ev with
    | .error e => .error e
    | .ok fs =>
      match streamSteps evs with
      | .error e => .error e
      | .ok rest => .ok (fs :: rest)

/-- The generator `stream_generate` (web.py:151-164): the frames emitted to one client,
given the store contents `r0` at connection time and the session trace.
First an immediate full refresh frame, then the loop. -/
def stream_generate (r0 : Store) (trace : List (Store × Option PubsubMsg)) :
    Except Unit (List String) :=
  match _get_status r0 with
  | .error e => .error e
  | .ok s0 =>
    match streamSteps trace with
    | .error e => .error e
    | .ok fss => .ok (stream_message "refresh" s0 :: fss.flatten)

/-! ### Event intake (web.py:173-194) -/

/-- The webhook event types that are enqueued (web.py:181-182). -/
def queueableEvents : List String := ["refresh", "pull_request", "status", "pull_request_review"]

/-- Is `needle` a contiguous part of `hay`?  (Python `in` on strings.) -/
def listHasPref : List Char → List Char → Bool
  | [], _ => true
  | _ :: _, [] => false
  | a :: as', b :: bs => a = b && listHasPref as' bs

/-- Substring test for Python `in` on strings. -/
def listInfix (needle : List Char) : List Char → Bool
  | [] => listHasPref needle []
  | c :: cs => listHasPref needle (c :: cs) || listInfix needle cs

/-- Python `k in data`: dict key membership, list element membership
(a string only equals string elements), substring on strings; `in` on other
values raises `TypeError`. -/
def pyContains (j : Json) (k : String) : Except Unit Bool :=
  match j with
  | .obj kvs => .ok (kvs.any (fun p => p.1 == k))
  | .arr xs => .ok (xs.any (fun x => match x with | .str s => s == k | _ => false))
  | .str s => .ok (listInfix k.toList s.toList)
  | _ => .error ()

/-- The field accesses performed for the log line (web.py:185-192):
`data["repository"]["full_name"]` or
`data["installation"]["account"]["login"]`, then `data["installation"]["id"]`.
Any failed access raises and turns the request into a server error. -/
def logFieldAccesses (data : Json) : Except Unit Unit :=
  match pyContains data "repository" with
  | .error e => .error e
  | .ok true =>
    match getItem data "repository" with
    | .error e => .error e
    | .ok r =>
      match getItem r "full_name" with
      | .error e => .error e
      | .ok _ =>
        match getItem data "installation" with
        | .error e => .error e
        | .ok i => (getItem i "id").map (fun _ => ())
  | .ok false =>
    match getItem data "installation" with
    | .error e => .error e
    | .ok i =>
      match getItem i "account" with
      | .error e => .error e
      | .ok a =>
        match getItem a "login" with
        | .error e => .error e
        | .ok _ => (getItem i "id").map (fun _ => ())

/-- The endpoint `POST /event` (web.py:173-194).  Returns the jobs pushed to the rq queue
(each `(event_type, data)`, web.py:183) and the HTTP outcome: `403` when
authentication aborts, `400` when the body is not JSON, `500` when the log
line's field accesses raise — the enqueue at web.py:183 has already happened
by then — and otherwise `("", 202)`. -/
def event_handler (secret : List Nat) (header : Option String) (body : List Nat)
    (eventType : Option String) : List (String × Json) × Except Nat (String × Nat) :=
  match authentification secret header body with
  | .forbidden => ([], .error 403)
  | .ok =>
    match jsonLoadsBytes body with
    | none => ([], .error 400)
    | some data =>
      let jobs :=
        match eventType with
        | some t => if t ∈ queueableEvents then [(t, data)] else []
        | none => []
      match logFieldAccesses data with
      | .error _ => (jobs, .error 500)
      | .ok _ => (jobs, .ok ("", 202))

/-! ### Bulk refresh (web.py:84-112)

The external code-host client is modelled by the data it would enumerate:
installations, each with an id and accessible repositories; a repository has
raw JSON data and its open pull requests, each with a base branch. -/

/-- An open pull request, reduced to the field the loop reads (`p.base.ref`). -/
structure PullReq where
  base_ref : String
deriving DecidableEq, Repr

/-- A repository as enumerated by `i.get_repos()`. -/
structure RepoModel where
  raw_data : Json
  pulls : List PullReq

/-- An installation as enumerated by `utils.get_installations`. -/
structure InstallModel where
  iid : Nat
  repos : List RepoModel

/-- The synthetic refresh-event payload built at web.py:106-110. -/
def refreshPayload (raw : Json) (iid : Nat) (branch : String) : Json :=
  .obj [("repository", raw), ("installation", .obj [("id", .num (iid : Int))]),
        ("branch", .str branch)]

/-- The inner `for branch in branches` loop (web.py:104-110): bumps
`counts[2]` and enqueues one refresh job per distinct base branch. -/
def branchLoop (raw : Json) (iid : Nat) :
    List String → (Nat × Nat × Nat) × List (String × Json) → (Nat × Nat × Nat) × List (String × Json)
  | [], st => st
  | b :: bs, ((c0, c1, c2), jobs) =>
    branchLoop raw iid bs ((c0, c1, c2 + 1), jobs ++ [("refresh", refreshPayload raw iid b)])

/-- The `for repo in i.get_repos()` loop (web.py:98-110): bumps `counts[1]`,
collects `set([p.base.ref for p in pulls])` and runs the branch loop. -/
def repoLoop (iid : Nat) :
    List RepoModel → (Nat × Nat × Nat) × List (String × Json) → (Nat × Nat × Nat) × List (String × Json)
  | [], st => st
  | rp :: rps, ((c0, c1, c2), jobs) =>
    repoLoop iid rps
      (branchLoop rp.raw_data iid ((rp.pulls.map PullReq.base_ref).dedup) ((c0, c1 + 1, c2), jobs))

/-- The `for install in ...` loop (web.py:92-110): bumps `counts[0]`. -/
def installLoop :
    List InstallModel → (Nat × Nat × Nat) × List (String × Json) → (Nat × Nat × Nat) × List (String × Json)
  | [], st => st
  | i :: is', ((c0, c1, c2), jobs) => installLoop is' (repoLoop i.iid i.repos ((c0 + 1, c1, c2), jobs))

/-- The operator-facing summary line (web.py:111-112). -/
def refreshSummary (c : Nat × Nat × Nat) : String :=
  "Updated " ++ toString c.1 ++ " installations, " ++ toString c.2.1 ++
    " repositories, " ++ toString c.2.2 ++ " branches"

/-- The endpoint `POST /refresh` (web.py:84-112): authenticate, walk every installation,
repository and distinct open-PR base branch, enqueue one refresh job per
branch, and answer with the three counters and status 202. -/
def refresh_all (secret : List Nat) (header : Option String) (body : List Nat)
    (installs : List InstallModel) : List (String × Json) × Except Nat (String × Nat) :=
  match authentification secret header body with
  | .forbidden => ([], .error 403)
  | .ok =>
    let (counts, jobs) := installLoop installs ((0, 0, 0), [])
    (jobs, .ok (refreshSummary counts, 202))

/-! ### Helper lemmas -/

set_option maxRecDepth 100000

theorem str_toList_append (s t : String) : (s ++ t).toList = s.toList ++ t.toList := by
  cases s; cases t; rfl

theorem str_mk_data (s : String) : String.mk s.data = s := by
  cases s; rfl

theorem hexDigitChar_ne_eqsign (n : Nat) : hexDigitChar n ≠ '=' := by
  unfold hexDigitChar; split <;> decide

theorem hexOfBytes_no_eqsign (bs : List Nat) : '=' ∉ (hexOfBytes bs).data := by
  intro hmem
  have h2 : '=' ∈ bs.flatMap hexBytePair := hmem
  rcases List.mem_flatMap.mp h2 with ⟨b, _, hc⟩
  simp only [hexBytePair, List.mem_cons, List.mem_singleton, List.not_mem_nil, or_false] at hc
  rcases hc with h | h
  · exact hexDigitChar_ne_eqsign _ h.symm
  · exact hexDigitChar_ne_eqsign _ h.symm

theorem splitOnChar_no_sep (sep : Char) (l : List Char) (h : sep ∉ l) :
    splitOnChar sep l = [l] := by
  induction l with
  | nil => rfl
  | cons c cs ih =>
    have hc : c ≠ sep := fun hce => h (hce ▸ List.mem_cons_self c cs)
    have hcs : sep ∉ cs := fun hm => h (List.mem_cons_of_mem _ hm)
    simp [splitOnChar, ih hcs, hc]

theorem pySplit_sha1_header (d : String) (h : '=' ∉ d.data) :
    pySplit ("sha1=" ++ d) '=' = ["sha1", d] := by
  unfold pySplit
  have e : ("sha1=" ++ d).toList = 's' :: 'h' :: 'a' :: '1' :: '=' :: d.data := by
    rw [str_toList_append]; rfl
  rw [e]
  simp [splitOnChar, splitOnChar_no_sep '=' d.data h, str_mk_data]

/-! ### C1 / C7: signature authentication -/

/-- C1.  For every secret `S` and body `B`, a request carrying the header
`"sha1=" + hex(HMAC-SHA1(S, B))` over exactly `B` passes `authentification`;
any body whose computed digest differs from the header's digest (in
particular any body differing from `B`, absent an HMAC-SHA1 collision) is
rejected with the 403 authorization failure, and `/event` processing stops
there: no job is enqueued and the response is the 403 abort. -/
theorem signature_auth_accepts_exact_body_rejects_mismatch :
    ∀ (secret body : List Nat),
      authentification secret (some ("sha1=" ++ compute_hmac secret body)) body = .ok ∧
      ∀ (body' : List Nat) (et : Option String),
        compute_hmac secret body' ≠ compute_hmac secret body →
        authentification secret (some ("sha1=" ++ compute_hmac secret body)) body' = .forbidden ∧
        event_handler secret (some ("sha1=" ++ compute_hmac secret body)) body' et
          = ([], .error 403) := by
  intro secret body
  have hsplit := pySplit_sha1_header (compute_hmac secret body)
    (hexOfBytes_no_eqsign (hmacSha1 secret body))
  constructor
  · simp [authentification, hsplit]
  · intro body' et hne
    have hforb :
        authentification secret (some ("sha1=" ++ compute_hmac secret body)) body'
          = .forbidden := by
      simp [authentification, hsplit, hne]
    exact ⟨hforb, by simp [event_handler, hforb]⟩

/-- Witness for C1: concrete secret and body, and a single-byte mutation of
the body (first byte `p` changed to `q`) whose digest differs, so the same
header is rejected. -/
theorem signature_auth_witness :
    authentification (strBytes "secret")
        (some ("sha1=" ++ compute_hmac (strBytes "secret") (strBytes "payload")))
        (strBytes "payload") = .ok ∧
      authentification (strBytes "secret")
        (some ("sha1=" ++ compute_hmac (strBytes "secret") (strBytes "payload")))
        (strBytes "qayload") = .forbidden ∧
      event_handler (strBytes "secret")
        (some ("sha1=" ++ compute_hmac (strBytes "secret") (strBytes "payload")))
        (strBytes "qayload") (some "status") = ([], .error 403) :=
  ⟨(signature_auth_accepts_exact_body_rejects_mismatch (strBytes "secret")
      (strBytes "payload")).1,
   ((signature_auth_accepts_exact_body_rejects_mismatch (strBytes "secret")
      (strBytes "payload")).2 (strBytes "qayload") (some "status") (by decide)).1,
   ((signature_auth_accepts_exact_body_rejects_mismatch (strBytes "secret")
      (strBytes "payload")).2 (strBytes "qayload") (some "status") (by decide)).2⟩

/-- C7.  A missing signature header, a header that does not split at `=` into
exactly two parts, and a header whose algorithm name is not `sha1` are all
rejected with the 403 authorization failure, whatever the digest. -/
theorem malformed_signature_header_rejected :
    ∀ (secret body : List Nat),
      authentification secret none body = .forbidden ∧
      (∀ h : String, (pySplit h '=').length ≠ 2 →
        authentification secret (some h) body = .forbidden) ∧
      (∀ (h a d : String), pySplit h '=' = [a, d] → a ≠ "sha1" →
        authentification secret (some h) body = .forbidden) := by
  intro secret body
  refine ⟨rfl, ?_, ?_⟩
  · intro h hlen
    match hsp : pySplit h '=' with
    | [] => simp [authentification, hsp]
    | [a] => simp [authentification, hsp]
    | [a, d] => exact absurd (by rw [hsp]; rfl) hlen
    | a :: b :: c :: rest => simp [authentification, hsp]
  · intro h a d hsp hne
    simp [authentification, hsp, hne]

/-- Witness for C7: the header `"sha1"` (no separator) and the header
`"md5=" ++ <the correct digest>` (unsupported algorithm, valid digest) are
both rejected, as is the absent header. -/
theorem malformed_signature_header_witness :
    authentification (strBytes "secret") none (strBytes "payload") = .forbidden ∧
      authentification (strBytes "secret") (some "sha1") (strBytes "payload") = .forbidden ∧
      authentification (strBytes "secret")
        (some ("md5=" ++ compute_hmac (strBytes "secret") (strBytes "payload")))
        (strBytes "payload") = .forbidden :=
  ⟨(malformed_signature_header_rejected (strBytes "secret") (strBytes "payload")).1,
   (malformed_signature_header_rejected (strBytes "secret") (strBytes "payload")).2.1
     "sha1" (by decide),
   (malformed_signature_header_rejected (strBytes "secret") (strBytes "payload")).2.2
     ("md5=" ++ compute_hmac (strBytes "secret") (strBytes "payload"))
     "md5" (compute_hmac (strBytes "secret") (strBytes "payload"))
     (by decide) (by decide)⟩

/-! ### C2: the `/queue` endpoint -/

/-- The JSON array `[{"updated_at":"a"}]` as raw bytes (20 bytes). -/
def c2Plain : List Nat := strBytes "[\x7b\"updated_at\":\"a\"\x7d]"

/-- An lz4 compression of `c2Plain`: 4-byte size header (20), then one
all-literal sequence (token `0xF0`, extension byte 5, 20 literal bytes). -/
def c2Compressed : List Nat := [20, 0, 0, 0, 240, 5] ++ c2Plain

/-- A store holding that compressed snapshot for `o`/`r`/`b`. -/
def c2Store : Store := [("queues~o~r~b", c2Compressed)]

/-- Counterexample to C2.  With a compressed snapshot stored under the key,
`GET /queue/o/r/b` returns the stored bytes verbatim — which decompress to the
JSON array `c2Plain` — not the decompressed JSON array the claim promises. -/
theorem queue_returns_raw_not_decompressed :
    queue c2Store "o" "r" "b" = c2Compressed ∧
      lz4_decompress c2Compressed = some c2Plain ∧
      queue c2Store "o" "r" "b" ≠ c2Plain := by
  refine ⟨rfl, rfl, ?_⟩
  decide

/-- C2 as amended.  `GET /queue/{owner}/{repo}/{branch}` returns the literal
`"[]"` when no value is stored under the key (and also when the stored value
is the empty byte string, which is falsy in Python), and otherwise returns
the stored value verbatim, without decompressing it. -/
theorem queue_verbatim_or_empty_list :
    ∀ (store : Store) (owner repo branch : String),
      (rget store (queueKey owner repo branch) = none →
        queue store owner repo branch = strBytes "[]") ∧
      (rget store (queueKey owner repo branch) = some [] →
        queue store owner repo branch = strBytes "[]") ∧
      (∀ v, rget store (queueKey owner repo branch) = some v → v ≠ [] →
        queue store owner repo branch = v) := by
  intro store owner repo branch
  refine ⟨?_, ?_, ?_⟩
  · intro h; simp [queue, h]
  · intro h; simp [queue, h]
  · intro v h hne; simp [queue, h, hne]

/-- Witness for the amended C2: a never-written branch yields `"[]"`, and the
stored compressed snapshot of `c2Store` comes back verbatim. -/
theorem queue_verbatim_or_empty_list_witness :
    queue [] "o" "r" "b" = strBytes "[]" ∧
      queue c2Store "o" "r" "b" = c2Compressed :=
  ⟨(queue_verbatim_or_empty_list [] "o" "r" "b").1 rfl,
   (queue_verbatim_or_empty_list c2Store "o" "r" "b").2.2 c2Compressed rfl (by decide)⟩

/-! ### C3 / C4: the status aggregation -/

/-- A store whose single snapshot decompresses to the empty JSON array `[]`
(size header 2, token `0x20`, literals `[`, `]`). -/
def c3Store : Store := [("queues~o~r~b", [2, 0, 0, 0, 32, 91, 93])]

/-- C3 fails on the code: a stored snapshot that decompresses to an empty
entry list makes the whole `/status` aggregation raise (`IndexError` from
`list(sorted([]))[-1]`, web.py:130) instead of contributing an empty
snapshot. -/
theorem status_aggregation_errors_on_empty_snapshot :
    lz4_decompress [2, 0, 0, 0, 32, 91, 93] = some (strBytes "[]") ∧
      jsonLoadsBytes (strBytes "[]") = some (.arr []) ∧
      statusSnapshots c3Store = .error () ∧
      _get_status c3Store = .error () :=
  ⟨rfl, rfl, rfl, rfl⟩

/-- The single pull of the C4 store, `{"updated_at":"2017"}`. -/
def c4Pull : Json := .obj [("updated_at", .str "2017")]

/-- lz4-compressed `[{"updated_at":"2017"}]` (23 bytes, all literals). -/
def c4Compressed : List Nat := [23, 0, 0, 0, 240, 8] ++ strBytes "[\x7b\"updated_at\":\"2017\"\x7d]"

/-- Two keys: branch `b` with one pull, branch `c` with a falsy (empty)
stored value. -/
def c4Store : Store := [("queues~o~r~b", c4Compressed), ("queues~o~r~c", [])]

/-- C4 fails on the code: because the Python local `pulls` is only assigned
inside `if payload:` (web.py:127-130), the snapshot emitted for branch `c`
reuses branch `b`'s entry list while its `updated_at` is `None` — a non-empty
snapshot whose `updated_at` is not the maximum of its entries' `updated_at`
(which `lastSortedUpdatedAt` computes as `"2017"`). -/
theorem status_snapshot_updated_at_not_max :
    statusSnapshots c4Store =
        .ok [⟨"o", "r", "b", [c4Pull], some (.str "2017")⟩,
             ⟨"o", "r", "c", [c4Pull], none⟩] ∧
      ([c4Pull] : List Json) ≠ [] ∧
      lastSortedUpdatedAt [c4Pull] = .ok (.str "2017") :=
  ⟨rfl, List.cons_ne_nil _ _, rfl⟩

/-! ### C5 / C6: the `/event` handler -/

/-- The concrete webhook secret used by the event-intake witnesses. -/
def cSecret : List Nat := strBytes "secret"

/-- A JSON body with neither `repository` nor `installation`. -/
def c5Body : List Nat := strBytes "\x7b\x7d"

/-- A valid signature header for `c5Body`. -/
def c5Header : String := "sha1=" ++ compute_hmac cSecret c5Body

/-- Counterexample to C5.  An authenticated `POST /event` with the parseable
JSON body `{}` (no `repository`, no `installation`) is not answered 202: the
log line's `data["installation"]` access raises `KeyError` (web.py:188) and
the request becomes a 500 server error. -/
theorem event_handler_errors_without_installation :
    authentification cSecret (some c5Header) c5Body = .ok ∧
      (event_handler cSecret (some c5Header) c5Body (some "status")).2 = .error 500 ∧
      (event_handler cSecret (some c5Header) c5Body (some "status")).2 ≠ .ok ("", 202) := by
  have h2 : (event_handler cSecret (some c5Header) c5Body (some "status")).2 = .error 500 := rfl
  refine ⟨rfl, h2, ?_⟩
  rw [h2]
  simp

/-- C5 as amended.  Every authenticated `POST /event` with a parseable JSON
body that supplies the fields the log line reads — `installation.id`, plus
`repository.full_name` when `repository` is present or
`installation.account.login` otherwise — is acknowledged with 202 and an
empty body, regardless of the event type; a body lacking those fields makes
the handler raise instead. -/
theorem event_handler_acknowledges_with_202 :
    ∀ (secret : List Nat) (header : Option String) (body : List Nat) (data : Json)
      (et : Option String),
      authentification secret header body = .ok →
      jsonLoadsBytes body = some data →
      logFieldAccesses data = .ok () →
      (event_handler secret header body et).2 = .ok ("", 202) := by
  intro secret header body data et hauth hload hlog
  simp [event_handler, hauth, hload, hlog]

/-- A JSON body carrying `repository.full_name` and `installation.id`. -/
def cOkBody : List Nat :=
  strBytes "\x7b\"repository\":\x7b\"full_name\":\"o/r\"\x7d,\"installation\":\x7b\"id\":1\x7d\x7d"

/-- The parse of `cOkBody`. -/
def cOkData : Json :=
  .obj [("repository", .obj [("full_name", .str "o/r")]),
        ("installation", .obj [("id", .num 1)])]

/-- A valid signature header for `cOkBody` under `cSecret`. -/
def cOkHeader : String := "sha1=" ++ compute_hmac cSecret cOkBody

/-- Witness for the amended C5: the concrete well-formed body is acknowledged
with 202, for an allow-listed and for a non-allow-listed event type alike. -/
theorem event_handler_acknowledges_with_202_witness :
    (event_handler cSecret (some cOkHeader) cOkBody (some "status")).2 = .ok ("", 202) ∧
      (event_handler cSecret (some cOkHeader) cOkBody (some "issue_comment")).2
        = .ok ("", 202) :=
  ⟨event_handler_acknowledges_with_202 cSecret (some cOkHeader) cOkBody cOkData
      (some "status") rfl rfl rfl,
   event_handler_acknowledges_with_202 cSecret (some cOkHeader) cOkBody cOkData
      (some "issue_comment") rfl rfl rfl⟩

/-- C6.  For every authenticated `POST /event` with a parseable JSON body:
an event type in the allow-list `refresh`, `pull_request`, `status`,
`pull_request_review` enqueues exactly the one job `(type, data)` carrying
the full parsed body; any other event type — or an absent event-type
header — enqueues nothing. -/
theorem event_handler_enqueues_exactly_allowed :
    ∀ (secret : List Nat) (header : Option String) (body : List Nat) (data : Json)
      (t : String),
      authentification secret header body = .ok →
      jsonLoadsBytes body = some data →
      (t ∈ queueableEvents → (event_handler secret header body (some t)).1 = [(t, data)]) ∧
      (t ∉ queueableEvents → (event_handler secret header body (some t)).1 = []) ∧
      (event_handler secret header body none).1 = [] := by
  intro secret header body data t hauth hload
  refine ⟨?_, ?_, ?_⟩
  · intro hmem
    simp [event_handler, hauth, hload, hmem]
    cases logFieldAccesses data <;> rfl
  · intro hmem
    simp [event_handler, hauth, hload, hmem]
    cases logFieldAccesses data <;> rfl
  · simp [event_handler, hauth, hload]
    cases logFieldAccesses data <;> rfl

/-- Witness for C6: with the concrete authenticated body, event type
`status` enqueues exactly one `("status", data)` job and `issue_comment`
enqueues none. -/
theorem event_handler_enqueues_exactly_allowed_witness :
    (event_handler cSecret (some cOkHeader) cOkBody (some "status")).1
        = [("status", cOkData)] ∧
      (event_handler cSecret (some cOkHeader) cOkBody (some "issue_comment")).1 = [] :=
  ⟨(event_handler_enqueues_exactly_allowed cSecret (some cOkHeader) cOkBody cOkData
      "status" rfl rfl).1 (by decide),
   (event_handler_enqueues_exactly_allowed cSecret (some cOkHeader) cOkBody cOkData
      "issue_comment" rfl rfl).2.1 (by decide)⟩

/-! ### C9: bulk refresh -/

/-- The distinct base branches of a repository's open pull requests
(`set([p.base.ref for p in pulls])`, web.py:101). -/
def repoBranches (rp : RepoModel) : List String := (rp.pulls.map PullReq.base_ref).dedup

/-- The jobs one repository contributes. -/
def repoJobs (iid : Nat) (rp : RepoModel) : List (String × Json) :=
  (repoBranches rp).map (fun b => ("refresh", refreshPayload rp.raw_data iid b))

theorem branchLoop_spec (raw : Json) (iid : Nat) :
    ∀ (bs : List String) (c0 c1 c2 : Nat) (jobs : List (String × Json)),
      branchLoop raw iid bs ((c0, c1, c2), jobs) =
        ((c0, c1, c2 + bs.length),
          jobs ++ bs.map (fun b => ("refresh", refreshPayload raw iid b))) := by
  intro bs
  induction bs with
  | nil => intro c0 c1 c2 jobs; simp [branchLoop]
  | cons b bs ih =>
    intro c0 c1 c2 jobs
    simp [branchLoop, ih, Nat.add_comm, Nat.add_assoc, Nat.add_left_comm]

theorem repoLoop_spec (iid : Nat) :
    ∀ (rps : List RepoModel) (c0 c1 c2 : Nat) (jobs : List (String × Json)),
      repoLoop iid rps ((c0, c1, c2), jobs) =
        ((c0, c1 + rps.length, c2 + (rps.map (fun rp => (repoBranches rp).length)).sum),
          jobs ++ (rps.map (repoJobs iid)).flatten) := by
  intro rps
  induction rps with
  | nil => intro c0 c1 c2 jobs; simp [repoLoop]
  | cons rp rps ih =>
    intro c0 c1 c2 jobs
    simp [repoLoop, branchLoop_spec, ih, repoBranches, repoJobs,
      Nat.add_comm, Nat.add_assoc, Nat.add_left_comm]

theorem installLoop_spec :
    ∀ (is' : List InstallModel) (c0 c1 c2 : Nat) (jobs : List (String × Json)),
      installLoop is' ((c0, c1, c2), jobs) =
        ((c0 + is'.length,
          c1 + (is'.map (fun i => i.repos.length)).sum,
          c2 + (is'.map (fun i => (i.repos.map (fun rp => (repoBranches rp).length)).sum)).sum),
          jobs ++ (is'.map (fun i => (i.repos.map (repoJobs i.iid)).flatten)).flatten) := by
  intro is'
  induction is' with
  | nil => intro c0 c1 c2 jobs; simp [installLoop]
  | cons i is' ih =>
    intro c0 c1 c2 jobs
    simp [installLoop, repoLoop_spec, ih,
      Nat.add_comm, Nat.add_assoc, Nat.add_left_comm]

/-- C9.  An authenticated bulk `POST /refresh` over `N` installations, where
installation `i` exposes `R_i` repositories and repository `j`'s open pull
requests target `B_j` distinct base branches, answers 202 with the summary
counters `(N, sum R_i, sum B_j)` and enqueues exactly `sum B_j` refresh
jobs; a repository with no open pull requests is counted in the repository
total and contributes zero branches without aborting the iteration. -/
theorem refresh_all_counts_and_jobs :
    ∀ (secret : List Nat) (header : Option String) (body : List Nat)
      (installs : List InstallModel),
      authentification secret header body = .ok →
      (refresh_all secret header body installs).2 =
          .ok (refreshSummary (installs.length,
            (installs.map (fun i => i.repos.length)).sum,
            (installs.map (fun i =>
              (i.repos.map (fun rp => (rp.pulls.map PullReq.base_ref).toFinset.card)).sum)).sum),
            202) ∧
        (refresh_all secret header body installs).1.length =
          (installs.map (fun i =>
            (i.repos.map (fun rp => (rp.pulls.map PullReq.base_ref).toFinset.card)).sum)).sum ∧
        ∀ i ∈ installs, ∀ rp ∈ i.repos, rp.pulls = [] →
          (rp.pulls.map PullReq.base_ref).toFinset.card = 0 := by
  intro secret header body installs hauth
  have hcard : ∀ rp : RepoModel,
      (repoBranches rp).length = (rp.pulls.map PullReq.base_ref).toFinset.card := by
    intro rp; rw [repoBranches, List.card_toFinset]
  have hjobs : ∀ iid rp, (repoJobs iid rp).length = (repoBranches rp).length := by
    intro iid rp; simp [repoJobs]
  refine ⟨?_, ?_, ?_⟩
  · simp only [refresh_all, hauth, installLoop_spec]
    simp [hcard]
  · simp only [refresh_all, hauth, installLoop_spec]
    simp [List.length_flatten, List.map_map, Function.comp_def, hjobs, hcard]
  · intro i _ rp _ hnil
    simp [hnil]

/-- Witness for C9: two installations, three repositories (one with no open
pull requests, one with a duplicated base branch), three distinct branches. -/
theorem refresh_all_counts_and_jobs_witness :
    (refresh_all cSecret (some ("sha1=" ++ compute_hmac cSecret [])) []
        [⟨7, [⟨.str "r1", [⟨"main"⟩, ⟨"dev"⟩, ⟨"main"⟩]⟩, ⟨.str "r2", []⟩]⟩,
         ⟨8, [⟨.str "r3", [⟨"m"⟩]⟩]⟩]).2 =
      .ok ("Updated 2 installations, 3 repositories, 3 branches", 202) ∧
    (refresh_all cSecret (some ("sha1=" ++ compute_hmac cSecret [])) []
        [⟨7, [⟨.str "r1", [⟨"main"⟩, ⟨"dev"⟩, ⟨"main"⟩]⟩, ⟨.str "r2", []⟩]⟩,
         ⟨8, [⟨.str "r3", [⟨"m"⟩]⟩]⟩]).1.length = 3 := by
  have h := refresh_all_counts_and_jobs cSecret (some ("sha1=" ++ compute_hmac cSecret []))
    []
    [⟨7, [⟨.str "r1", [⟨"main"⟩, ⟨"dev"⟩, ⟨"main"⟩]⟩, ⟨.str "r2", []⟩]⟩,
     ⟨8, [⟨.str "r3", [⟨"m"⟩]⟩]⟩]
    rfl
  refine ⟨?_, ?_⟩
  · rw [h.1]; rfl
  · rw [h.2.1]; rfl

/-! ### C8 / C10: the streaming loop -/

theorem streamSteps_snoc (xs : List (Store × Option PubsubMsg)) (e : Store × Option PubsubMsg) :
    streamSteps (xs ++ [e]) =
      match streamSteps xs with
      | .error u => .error u
      | .ok fss =>
        match stream_step e with
        | .error u => .error u
        | .ok fs => .ok (fss ++ [fs]) := by
  induction xs with
  | nil =>
    rw [List.nil_append]
    simp only [streamSteps]
    cases stream_step e <;> rfl
  | cons x xs ih =>
    rw [List.cons_append]
    simp only [streamSteps]
    simp only [ih]
    cases stream_step x <;> cases streamSteps xs <;> cases stream_step e <;> rfl

theorem stream_generate_snoc (r0 : Store) (trace : List (Store × Option PubsubMsg))
    (e : Store × Option PubsubMsg) :
    stream_generate r0 (trace ++ [e]) =
      match stream_generate r0 trace with
      | .error u => .error u
      | .ok out =>
        match stream_step e with
        | .error u => .error u
        | .ok fs => .ok (out ++ fs) := by
  simp only [stream_generate, streamSteps_snoc]
  cases _get_status r0 <;> cases streamSteps trace <;> cases hs : stream_step e <;>
    simp

theorem stream_step_shape (ev : Store × Option PubsubMsg) (fs : List String)
    (h : stream_step ev = .ok fs) :
    ∀ f ∈ fs, (∃ d, f = stream_message "refresh" d) ∨ f = stream_message "ping" "\x7b\x7d" := by
  intro f hf
  rcases ev with ⟨s, m⟩
  cases m with
  | none =>
    simp only [stream_step] at h
    cases h
    simp only [List.mem_singleton] at hf
    exact Or.inr hf
  | some msg =>
    simp only [stream_step] at h
    by_cases hc : msg.channel = "update"
    · rw [if_pos hc] at h
      cases hg : _get_status s with
      | error u => rw [hg] at h; cases h
      | ok st =>
        rw [hg] at h
        cases h
        simp only [List.mem_singleton] at hf
        exact Or.inl ⟨st, hf⟩
    · rw [if_neg hc] at h
      cases h
      cases hf

theorem streamSteps_shape (trace : List (Store × Option PubsubMsg))
    (fss : List (List String)) (h : streamSteps trace = .ok fss) :
    ∀ fs ∈ fss, ∀ f ∈ fs,
      (∃ d, f = stream_message "refresh" d) ∨ f = stream_message "ping" "\x7b\x7d" := by
  induction trace generalizing fss with
  | nil =>
    simp only [streamSteps] at h
    cases h
    intro fs hfs
    cases hfs
  | cons ev evs ih =>
    simp only [streamSteps] at h
    cases hstep : stream_step ev with
    | error u => rw [hstep] at h; cases h
    | ok fs0 =>
      rw [hstep] at h
      cases hrest : streamSteps evs with
      | error u => rw [hrest] at h; cases h
      | ok rest =>
        rw [hrest] at h
        cases h
        intro fs hfs
        rcases List.mem_cons.mp hfs with hfs | hfs
        · exact hfs ▸ stream_step_shape ev fs0 hstep
        · exact ih rest hrest fs hfs

/-- C8.  For every streaming client: the first emitted frame is a refresh
frame carrying the status computed at connection time; a wait that ends in a
timeout appends exactly one ping frame with payload `{}`; an update
notification received at store state `s` appends exactly one refresh frame
carrying the freshly recomputed status of `s`; and every emitted frame has
the exact format `event: <type>\ndata: <json>\n\n` with type `refresh` or
`ping`. -/
theorem stream_session_frames :
    ∀ (r0 : Store) (s0 : String) (trace : List (Store × Option PubsubMsg)),
      _get_status r0 = .ok s0 →
      (∀ out, stream_generate r0 trace = .ok out →
        out.head? = some (stream_message "refresh" s0)) ∧
      (∀ s : Store, stream_generate r0 (trace ++ [(s, none)]) =
        (stream_generate r0 trace).map (fun out => out ++ [stream_message "ping" "\x7b\x7d"])) ∧
      (∀ (s : Store) (m : PubsubMsg) (st : String), m.channel = "update" →
        _get_status s = .ok st →
        stream_generate r0 (trace ++ [(s, some m)]) =
          (stream_generate r0 trace).map (fun out => out ++ [stream_message "refresh" st])) ∧
      (∀ out, stream_generate r0 trace = .ok out → ∀ f ∈ out,
        (∃ d, f = stream_message "refresh" d) ∨ f = stream_message "ping" "\x7b\x7d") ∧
      (∀ t d, stream_message t d = "event: " ++ t ++ "\ndata: " ++ d ++ "\n\n") := by
  intro r0 s0 trace h0
  refine ⟨?_, ?_, ?_, ?_, fun t d => rfl⟩
  · intro out hout
    simp only [stream_generate, h0] at hout
    cases hss : streamSteps trace with
    | error u => rw [hss] at hout; cases hout
    | ok fss => rw [hss] at hout; cases hout; rfl
  · intro s
    rw [stream_generate_snoc]
    have hstep : stream_step (s, none) = .ok [stream_message "ping" "\x7b\x7d"] := rfl
    rw [hstep]
    cases stream_generate r0 trace <;> simp [Except.map]
  · intro s m st hch hst
    rw [stream_generate_snoc]
    have hstep : stream_step (s, some m) = .ok [stream_message "refresh" st] := by
      simp [stream_step, hch, hst]
    rw [hstep]
    cases stream_generate r0 trace <;> simp [Except.map]
  · intro out hout
    simp only [stream_generate, h0] at hout
    cases hss : streamSteps trace with
    | error u => rw [hss] at hout; cases hout
    | ok fss =>
      rw [hss] at hout
      cases hout
      intro f hf
      rcases List.mem_cons.mp hf with hf | hf
      · exact Or.inl ⟨s0, hf⟩
      · rcases List.mem_flatten.mp hf with ⟨fs, hfs, hffs⟩
        exact streamSteps_shape trace fss hss fs hfs f hffs

/-- Witness for C8: on the empty store, a timeout appends one ping frame and
an update message appends one refresh frame of the freshly computed (empty)
status. -/
theorem stream_session_frames_witness :
    stream_generate [] ([] ++ [(([] : Store), (none : Option PubsubMsg))]) =
        (stream_generate [] []).map (fun out => out ++ [stream_message "ping" "\x7b\x7d"]) ∧
      stream_generate [] ([] ++ [(([] : Store), some ⟨"message", "update", "1"⟩)]) =
        (stream_generate [] []).map (fun out => out ++ [stream_message "refresh" "[]"]) :=
  ⟨(stream_session_frames [] "[]" [] rfl).2.1 [],
   (stream_session_frames [] "[]" [] rfl).2.2.1 [] ⟨"message", "update", "1"⟩ "[]" rfl rfl⟩

/-- C10.  In the streaming loop, a received message is judged solely by its
`channel` field: a message on channel `update` — whatever its `type` field,
including the subscription confirmation of type `subscribe` — appends exactly
one refresh frame with the freshly recomputed status, while a message on any
other channel appends no frame at all before the next wait. -/
theorem stream_message_channel_dispatch :
    ∀ (r0 s : Store) (trace : List (Store × Option PubsubMsg)) (m : PubsubMsg),
      (∀ st : String, m.channel = "update" → _get_status s = .ok st →
        stream_generate r0 (trace ++ [(s, some m)]) =
          (stream_generate r0 trace).map (fun out => out ++ [stream_message "refresh" st])) ∧
      (m.channel ≠ "update" →
        stream_generate r0 (trace ++ [(s, some m)]) = stream_generate r0 trace) := by
  intro r0 s trace m
  constructor
  · intro st hch hst
    rw [stream_generate_snoc]
    have hstep : stream_step (s, some m) = .ok [stream_message "refresh" st] := by
      simp [stream_step, hch, hst]
    rw [hstep]
    cases stream_generate r0 trace <;> simp [Except.map]
  · intro hch
    rw [stream_generate_snoc]
    have hstep : stream_step (s, some m) = .ok [] := by
      simp [stream_step, hch]
    rw [hstep]
    cases stream_generate r0 trace <;> simp

/-- Witness for C10: the subscription-confirmation message (type
`subscribe`, channel `update`) produces a refresh frame, and a message on
channel `other` produces nothing. -/
theorem stream_message_channel_dispatch_witness :
    stream_generate [] ([] ++ [(([] : Store), some ⟨"subscribe", "update", "1"⟩)]) =
        (stream_generate [] []).map (fun out => out ++ [stream_message "refresh" "[]"]) ∧
      stream_generate [] ([] ++ [(([] : Store), some ⟨"message", "other", "x"⟩)]) =
        stream_generate [] [] :=
  ⟨(stream_message_channel_dispatch [] [] [] ⟨"subscribe", "update", "1"⟩).1 "[]" rfl rfl,
   (stream_message_channel_dispatch [] [] [] ⟨"message", "other", "x"⟩).2 (by decide)⟩

end Pastamaker
